import Mathlib

/-!
Shallow embedding of the upload/validation/result-orchestration workflow of
the Student Grading System front end (`StudentGradingSystem` React component).

The component keeps its state in independent React `useState` cells; here the
data-bearing cells are collected into one `State` record.  Event handlers
become pure functions from a state (plus the outcome of any network call the
handler awaits, supplied as an explicit argument) to the new state together
with the list of notifications the handler emitted via `showNotification`.
A handler that issues a network request reports the request it built as an
`Option`/first component, so "no network call was made" is expressible.
Presentational state (the drag-active flag, the DOM input ref) carries no
workflow data and is not modelled.
-/

/-- A notification as set by `showNotification(message, type)`. -/
structure Notification where
  message : String
  kind : String
deriving Repr, DecidableEq

/-- The locally selected file handle; only its `name` is inspected by the
workflow logic. -/
structure FileHandle where
  name : String
deriving Repr, DecidableEq

/-- The `downloadInfo` record committed on a successful upload:
`{ fileId: result.file_id, filename: result.filename }`. -/
structure DownloadInfo where
  fileId : String
  filename : String
deriving Repr, DecidableEq

/-- The `summary` object of a successful upload response
(`{count, average, max, min, grading_method}`); stored as-is. -/
structure Summary where
  count : Nat
  average : Rat
  max : Rat
  min : Rat
  grading_method : String
deriving Repr, DecidableEq

/-- One per-student record of `result.details`:
`{Name, Marks, Grade, Grade_Points}`, marks and grade points nullable. -/
structure StudentRecord where
  Name : String
  Marks : Option Rat
  Grade : String
  Grade_Points : Option Rat
deriving Repr, DecidableEq

/-- One bar of `chartData`: `{ grade, 'Number of Students': n }`. -/
structure ChartPoint where
  grade : String
  numberOfStudents : Nat
deriving Repr, DecidableEq

/-- The backend-driven grade range map (`data.grade_ranges`), adopted
verbatim: an association of grade labels to range strings. -/
abbrev GradeRangeMap : Type := List (String × String)

/-- The data-bearing `useState` cells of the component. -/
structure State where
  selectedFile : Option FileHandle
  isUploading : Bool
  downloadInfo : Option DownloadInfo
  resultStats : Option Summary
  resultDetails : List StudentRecord
  chartData : List ChartPoint
  gradeRanges : Option GradeRangeMap
  expectedTotal : String
  subjectCode : String
deriving Repr, DecidableEq

/-- One entry of `gradeSystem.ranges`. -/
structure GradeSystemEntry where
  grade : String
  points : Nat
deriving Repr, DecidableEq

/-- `gradeSystem.ranges`: the canonical grade labels with their point
values. -/
def gradeSystemRanges : List GradeSystemEntry :=
  [⟨"O", 10⟩, ⟨"A+", 9⟩, ⟨"A", 8⟩, ⟨"B+", 7⟩, ⟨"B", 6⟩, ⟨"C", 5⟩, ⟨"U", 0⟩]

/-- `const gradeOrder = gradeSystem.ranges.map(r => r.grade)`. -/
def gradeOrder : List String :=
  gradeSystemRanges.map (fun r => r.grade)

/-- The `counts` accumulator built by
`result.details.reduce((acc, student) => { acc[student.Grade] =
(acc[student.Grade] || 0) + 1; return acc; }, {})`, modelled as a total
function with the absent-key/`|| 0` default of 0. -/
def countsOf (details : List StudentRecord) : String → Nat :=
  details.foldl
    (fun acc st => fun g => if g = st.Grade then acc st.Grade + 1 else acc g)
    (fun _ => 0)

/-- The chart aggregation of `handleUpload`:
`gradeOrder.map(grade => ({ grade, 'Number of Students': counts[grade] || 0 }))`. -/
def aggregate (details : List StudentRecord) : List ChartPoint :=
  gradeOrder.map (fun grade => ⟨grade, countsOf details grade⟩)

/-- `resetState()`: clears every data-bearing cell (the DOM input value it
also clears is presentational). -/
def resetState (s : State) : State :=
  { s with
    selectedFile := none
    isUploading := false
    downloadInfo := none
    resultStats := none
    resultDetails := []
    chartData := []
    gradeRanges := none
    expectedTotal := ""
    subjectCode := "" }

/-- The all-empty state (what `resetState` produces). -/
def emptyState : State :=
  ⟨none, false, none, none, [], [], none, "", ""⟩

/-- Model of the JavaScript `toLowerCase()` builtin on the ASCII range:
lower-case every character. -/
def strToLower (s : String) : String :=
  ⟨s.data.map Char.toLower⟩

/-- Model of the JavaScript `endsWith(suffix)` builtin. -/
def strEndsWith (s suf : String) : Bool :=
  suf.data.isSuffixOf s.data

/-- Model of the JavaScript `trim()` builtin: strip leading and trailing
whitespace characters. -/
def jsTrim (s : String) : String :=
  ⟨(((s.data.dropWhile Char.isWhitespace).reverse.dropWhile Char.isWhitespace).reverse)⟩

/-- `handleFileSelect(files)`: `files` is a possibly-null file list;
returns the new state and the notifications emitted. -/
def handleFileSelect (s : State) (files : Option (List FileHandle)) :
    State × List Notification :=
  match files with
  | none => (s, [])
  | some [] => (s, [])
  | some (file :: _) =>
    if !(strEndsWith (strToLower file.name) ".xlsx") &&
        !(strEndsWith (strToLower file.name) ".xls") then
      (s, [⟨"Please select a valid Excel file (.xlsx or .xls)", "error"⟩])
    else
      ({ resetState s with selectedFile := some file }, [])

/-- Numeric value of a list of decimal digit characters. -/
def digitsVal (cs : List Char) : Nat :=
  cs.foldl (fun a c => a * 10 + (c.toNat - '0'.toNat)) 0

/-- Parse an unsigned decimal literal (`digits`, `digits.digits`,
`digits.`, `.digits`); `none` when the characters are not such a literal. -/
def parseUnsignedDec (cs : List Char) : Option Rat :=
  let intPart := cs.takeWhile Char.isDigit
  let rest := cs.dropWhile Char.isDigit
  match rest with
  | [] => if intPart.isEmpty then none else some (digitsVal intPart : Rat)
  | '.' :: frac =>
    if frac.all Char.isDigit && !(intPart.isEmpty && frac.isEmpty) then
      some ((digitsVal intPart : Rat) + (digitsVal frac : Rat) / ((10 : Rat) ^ frac.length))
    else none
  | _ => none

/-- Model of the ECMAScript `Number(string)` conversion restricted to its
decimal fragment (whitespace trimming, empty string ↦ 0, optional sign,
decimal digits with at most one point); `none` models `NaN`.  Exotic forms
(hex, exponents, `Infinity`) are outside the inputs this workflow handles. -/
def jsNumber (s : String) : Option Rat :=
  let t := jsTrim s
  if t = "" then some 0
  else
    match t.data with
    | '-' :: rest => (parseUnsignedDec rest).map (fun q => -q)
    | '+' :: rest => parseUnsignedDec rest
    | cs => parseUnsignedDec cs

/-- The truthiness-and-sign test of line
`if (!expectedTotal || isNaN(Number(expectedTotal)) || Number(expectedTotal) < 0)`. -/
def invalidExpectedTotal (et : String) : Bool :=
  et = "" || (jsNumber et).isNone ||
    (match jsNumber et with | some q => decide (q < 0) | none => false)

/-- The multipart form data built by `handleUpload` once validation passes:
the file plus the stringified total and the trimmed subject code. -/
structure FormDataModel where
  file : FileHandle
  expected_total_students : String
  subject_code : String
deriving Repr, DecidableEq

/-- The validation phase of `handleUpload` (its three early returns); on
success yields the staged file the request will carry. -/
def validateUpload (s : State) : Except Notification FileHandle :=
  match s.selectedFile with
  | none => .error ⟨"Please select a file first", "error"⟩
  | some f =>
    if invalidExpectedTotal s.expectedTotal then
      .error ⟨"Please enter a valid expected total number of students", "error"⟩
    else if s.subjectCode = "" || jsTrim s.subjectCode = "" then
      .error ⟨"Please enter the subject code for verification", "error"⟩
    else .ok f

/-- JSON body of an `/upload` response.  `error` and `found_subjects` are
the failure-side fields (absent ↦ `none`); the success-side fields are read
only when the response is ok. -/
structure UploadBody where
  error : Option String
  found_subjects : Option (List String)
  file_id : String
  filename : String
  summary : Summary
  details : List StudentRecord
deriving Repr, DecidableEq

/-- Outcome of awaiting `fetch('/upload')` then `response.json()`: either a
response with an HTTP status and a parsed body, or a thrown error (network
failure or JSON parse failure) with its message. -/
inductive FetchOutcome where
  | response (status : Nat) (body : UploadBody)
  | thrown (msg : String)
deriving Repr, DecidableEq

/-- `Response.ok`: status in the inclusive range 200–299. -/
def respOk (status : Nat) : Bool :=
  200 ≤ status && status < 300

/-- The error message composed for a non-ok response (lines building
`new Error(...)`): with a `found_subjects` list, the server's error text
(when truthy) followed by `'Found subjects: '` and the comma-joined list;
otherwise the server's error text (when truthy) or the generic fallback. -/
def uploadErrorMessage (body : UploadBody) : String :=
  match body.found_subjects with
  | some fs =>
    (match body.error with
     | some e => if e = "" then "" else e ++ " "
     | none => "") ++ "Found subjects: " ++ String.intercalate ", " fs
  | none =>
    match body.error with
    | some e => if e = "" then "Failed to upload file" else e
    | none => "Failed to upload file"

/-- The try-block of `handleUpload` after the request resolves: commit the
result and recompute the chart on ok, otherwise fall to the catch-block
notification.  The subsequent grade-range fetch is a separate asynchronous
step, modelled by `applyRangeFetch`. -/
def handleUploadResponse (s : State) (r : FetchOutcome) :
    State × List Notification :=
  match r with
  | .thrown m => (s, [⟨m, "error"⟩])
  | .response status body =>
    if respOk status then
      ({ s with
          downloadInfo := some ⟨body.file_id, body.filename⟩
          resultStats := some body.summary
          resultDetails := body.details
          chartData := aggregate body.details },
       [⟨"File processed successfully!", "success"⟩])
    else
      (s, [⟨uploadErrorMessage body, "error"⟩])

/-- The state in force while the upload request is in flight:
`setIsUploading(true)` has run, nothing else has changed. -/
def stateAtRequestTime (s : State) : State :=
  { s with isUploading := true }

/-- `handleUpload()` end to end, with the awaited fetch outcome supplied as
an argument.  The first component is the request actually issued (`none`
when validation failed before any network call); the `finally` clause
clears the busy flag on every path that issued a request. -/
def handleUpload (s : State) (r : FetchOutcome) :
    Option FormDataModel × State × List Notification :=
  match validateUpload s with
  | .error n => (none, s, [n])
  | .ok f =>
    let fd : FormDataModel := ⟨f, s.expectedTotal, jsTrim s.subjectCode⟩
    let (s2, ns) := handleUploadResponse (stateAtRequestTime s) r
    (some fd, { s2 with isUploading := false }, ns)

/-- Outcome of the fire-and-forget `fetch('/grade-ranges/...')` chain:
a parsed body whose `grade_ranges` field may be absent, or a rejection
(network error or JSON parse failure) landing in the `.catch`. -/
inductive RangeFetchOutcome where
  | ok (grade_ranges : Option GradeRangeMap)
  | failed
deriving Repr, DecidableEq

/-- The `.then`/`.catch` continuations of the grade-range fetch:
`if (data.grade_ranges) setGradeRanges(data.grade_ranges); else
setGradeRanges(null)`, and `.catch(() => setGradeRanges(null))`. -/
def applyRangeFetch (s : State) (r : RangeFetchOutcome) :
    State × List Notification :=
  match r with
  | .ok (some gr) => ({ s with gradeRanges := some gr }, [])
  | .ok none => ({ s with gradeRanges := none }, [])
  | .failed => ({ s with gradeRanges := none }, [])

/-- Outcome of awaiting `fetch('/download/...')`: a response with a status
(the body bytes are irrelevant to the state logic) or a thrown error. -/
inductive DownloadFetch where
  | response (status : Nat)
  | thrown (msg : String)
deriving Repr, DecidableEq

/-- `handleDownload()`: the first component is the `fileId` the GET was
issued for (`none` when no request was made). -/
def handleDownload (s : State) (r : DownloadFetch) :
    Option String × List Notification :=
  match s.downloadInfo with
  | none => (none, [⟨"No file available for download.", "error"⟩])
  | some info =>
    match r with
    | .thrown m => (some info.fileId, [⟨m, "error"⟩])
    | .response status =>
      if respOk status then
        (some info.fileId, [⟨"File downloaded successfully!", "success"⟩])
      else
        (some info.fileId, [⟨"Download failed from server.", "error"⟩])

/-!
Timed model of `showNotification`.  The notification cell is single-slot;
every call schedules `setTimeout(() => setNotification({message:'',type:''}),
4000)`, and the scheduled callback captures nothing: when it fires it clears
whatever notification is then displayed, unconditionally.
-/

/-- The notification cell together with the absolute firing times of the
clear callbacks scheduled by `setTimeout(..., 4000)` that have not yet
fired. -/
structure NotifState where
  current : Notification
  timers : List Nat
deriving Repr, DecidableEq

/-- The initial notification state: `useState({ message: '', type: '' })`. -/
def notifInit : NotifState :=
  ⟨⟨"", ""⟩, []⟩

/-- `showNotification(message, type)` called at absolute time `t`: replace
the displayed notification and schedule a clear callback for `t + 4000`. -/
def showNotificationAt (st : NotifState) (t : Nat) (message kind : String) :
    NotifState :=
  { current := ⟨message, kind⟩, timers := st.timers ++ [t + 4000] }

/-- Advance to absolute time `t`: every scheduled clear callback due at `t`
fires, and each one resets the cell to the empty notification regardless of
which notification is currently displayed. -/
def fireTimersAt (st : NotifState) (t : Nat) : NotifState :=
  if st.timers.contains t then
    { current := ⟨"", ""⟩, timers := st.timers.filter (fun u => u ≠ t) }
  else st

/-- `sub` occurs as a contiguous substring of `m`. -/
def strContains (m sub : String) : Prop :=
  ∃ l r : String, m = l ++ sub ++ r

/-- Sample per-student details used to build concrete states. -/
def sampleDetails : List StudentRecord :=
  [⟨"Asha", some 91, "O", some 10⟩, ⟨"Ravi", some 55, "C", some 5⟩]

/-- A concrete state holding a committed prior successful result. -/
def sampleResultState : State :=
  { selectedFile := some ⟨"marks.xlsx"⟩
    isUploading := false
    downloadInfo := some ⟨"id-1", "graded.xlsx"⟩
    resultStats := some ⟨2, 73, 91, 55, "absolute"⟩
    resultDetails := sampleDetails
    chartData := aggregate sampleDetails
    gradeRanges := some [("O", "90-100")]
    expectedTotal := "45"
    subjectCode := "CS101" }

/-- A concrete state that passes upload validation. -/
def uploadReadyState : State :=
  { emptyState with
    selectedFile := some ⟨"marks.xlsx"⟩
    expectedTotal := "45"
    subjectCode := " CS101 " }

/-!  Helper lemmas. -/

theorem countsOf_foldl (l : List StudentRecord) (acc : String → Nat) (g : String) :
    l.foldl (fun a st => fun x => if x = st.Grade then a st.Grade + 1 else a x) acc g
      = acc g + l.countP (fun st => st.Grade = g) := by
  induction l generalizing acc with
  | nil => simp
  | cons st l ih =>
    rw [List.foldl_cons, ih, List.countP_cons]
    by_cases h : g = st.Grade
    · subst h
      simp
      omega
    · have h' : ¬ (st.Grade = g) := fun hh => h hh.symm
      simp [h, h']

theorem countsOf_eq_filter_length (details : List StudentRecord) (g : String) :
    countsOf details g = (details.filter (fun st => st.Grade = g)).length := by
  unfold countsOf
  rw [countsOf_foldl, List.countP_eq_length_filter]
  simp

theorem strContains_left (a b c : String) : strContains ((a ++ b) ++ c) b :=
  ⟨a, c, by rw [String.append_assoc]⟩

theorem strContains_right (a b : String) : strContains (a ++ b) b :=
  ⟨a, "", by rw [String.append_assoc, String.append_empty]⟩

/-!  Claim theorems. -/

/-- C1: the chart aggregation is a pure function that emits one `(grade,
count)` pair per canonical grade label (O, A+, A, B+, B, C, U) in exactly
that order, each count being the number of records carrying that grade
(zero counts included, unrecognized labels contributing to no counter);
and on `[{Grade:"O"},{Grade:"O"},{Grade:"B"}]` it yields
`[{O,2},{A+,0},{A,0},{B+,0},{B,1},{C,0},{U,0}]`. -/
theorem c1_aggregate_canonical (details : List StudentRecord) :
    aggregate details
        = gradeOrder.map
            (fun g => ⟨g, (details.filter (fun st => st.Grade = g)).length⟩) ∧
    aggregate [⟨"", none, "O", none⟩, ⟨"", none, "O", none⟩, ⟨"", none, "B", none⟩]
        = [⟨"O", 2⟩, ⟨"A+", 0⟩, ⟨"A", 0⟩, ⟨"B+", 0⟩, ⟨"B", 1⟩, ⟨"C", 0⟩, ⟨"U", 0⟩] := by
  constructor
  · unfold aggregate
    exact List.map_congr_left fun g _ => by rw [countsOf_eq_filter_length]
  · rfl

/-- C2: whenever no file is staged, or `expectedTotal` is empty,
non-numeric, or negative, or `subjectCode` is empty after trimming,
`submit()` issues no network request, leaves the state unchanged, and
emits exactly one error notification; the validations run before any
request is built. -/
theorem c2_submit_validation (s : State) (r : FetchOutcome)
    (h : s.selectedFile = none ∨ s.expectedTotal = "" ∨
         jsNumber s.expectedTotal = none ∨ (jsNumber s.expectedTotal).getD 0 < 0 ∨
         jsTrim s.subjectCode = "") :
    (handleUpload s r).1 = none ∧
    (handleUpload s r).2.1 = s ∧
    (handleUpload s r).2.2.length = 1 ∧
    (handleUpload s r).2.2.all (fun n => n.kind == "error") = true := by
  have hv : ∃ n : Notification, validateUpload s = .error n ∧ n.kind = "error" := by
    unfold validateUpload
    cases hf : s.selectedFile with
    | none => exact ⟨_, rfl, rfl⟩
    | some f =>
      have hbad : invalidExpectedTotal s.expectedTotal = true ∨ jsTrim s.subjectCode = "" := by
        rcases h with h | h | h | h | h
        · rw [hf] at h; cases h
        · left; simp [invalidExpectedTotal, h]
        · left; simp [invalidExpectedTotal, h]
        · left
          cases hq : jsNumber s.expectedTotal with
          | none => simp [invalidExpectedTotal, hq]
          | some q =>
            rw [hq, Option.getD_some] at h
            simp [invalidExpectedTotal, hq, h]
        · right; exact h
      rcases hbad with hb | hb
      · exact ⟨⟨"Please enter a valid expected total number of students", "error"⟩,
          by simp [hb], rfl⟩
      · by_cases hi : invalidExpectedTotal s.expectedTotal = true
        · exact ⟨⟨"Please enter a valid expected total number of students", "error"⟩,
            by simp [hi], rfl⟩
        · exact ⟨⟨"Please enter the subject code for verification", "error"⟩,
            by simp [hi, hb], rfl⟩
  obtain ⟨n, hvn, hk⟩ := hv
  simp [handleUpload, hvn, hk]

/-- C2 witness: with a staged file and subject code, each of the
`expectedTotal` inputs `""`, `"-1"` and `"abc"` is rejected with one error
notification, no state change, and no network request. -/
theorem c2_submit_validation_witness :
    ((handleUpload { uploadReadyState with expectedTotal := "" } (.thrown "net")).1 = none ∧
     (handleUpload { uploadReadyState with expectedTotal := "" } (.thrown "net")).2.1
        = { uploadReadyState with expectedTotal := "" } ∧
     (handleUpload { uploadReadyState with expectedTotal := "" } (.thrown "net")).2.2.length = 1 ∧
     (handleUpload { uploadReadyState with expectedTotal := "" } (.thrown "net")).2.2.all
        (fun n => n.kind == "error") = true) ∧
    ((handleUpload { uploadReadyState with expectedTotal := "-1" } (.thrown "net")).1 = none ∧
     (handleUpload { uploadReadyState with expectedTotal := "-1" } (.thrown "net")).2.1
        = { uploadReadyState with expectedTotal := "-1" } ∧
     (handleUpload { uploadReadyState with expectedTotal := "-1" } (.thrown "net")).2.2.length = 1 ∧
     (handleUpload { uploadReadyState with expectedTotal := "-1" } (.thrown "net")).2.2.all
        (fun n => n.kind == "error") = true) ∧
    ((handleUpload { uploadReadyState with expectedTotal := "abc" } (.thrown "net")).1 = none ∧
     (handleUpload { uploadReadyState with expectedTotal := "abc" } (.thrown "net")).2.1
        = { uploadReadyState with expectedTotal := "abc" } ∧
     (handleUpload { uploadReadyState with expectedTotal := "abc" } (.thrown "net")).2.2.length = 1 ∧
     (handleUpload { uploadReadyState with expectedTotal := "abc" } (.thrown "net")).2.2.all
        (fun n => n.kind == "error") = true) :=
  ⟨c2_submit_validation _ _ (Or.inr (Or.inl rfl)),
   c2_submit_validation _ _ (Or.inr (Or.inr (Or.inr (Or.inl (by decide))))),
   c2_submit_validation _ _ (Or.inr (Or.inr (Or.inl (by decide))))⟩

/-- C3 (as implemented, contradicting the claim): after a second
notification replaces the first, the first notification's clear callback,
firing at its own deadline of 4000 while the second is displayed, resets
the cell to the empty notification — it does clear the newer message, whose
own deadline of 6000 has not yet arrived. -/
theorem c3_first_timer_clears_replacement :
    (showNotificationAt (showNotificationAt notifInit 0 "A" "error")
        2000 "B" "success").current.message = "B" ∧
    (fireTimersAt (showNotificationAt (showNotificationAt notifInit 0 "A" "error")
        2000 "B" "success") 4000).current.message = "" ∧
    (4000 : Nat) < 2000 + 4000 := by
  exact ⟨rfl, rfl, by decide⟩

/-- C4: for a candidate file whose name ends in neither `.xlsx` nor `.xls`
(case-insensitively), `selectFile` emits exactly the one invalid-file-type
error notification and changes no state field. -/
theorem c4_invalid_file_type (s : State) (f : FileHandle) (rest : List FileHandle)
    (h1 : strEndsWith (strToLower f.name) ".xlsx" = false)
    (h2 : strEndsWith (strToLower f.name) ".xls" = false) :
    handleFileSelect s (some (f :: rest))
      = (s, [⟨"Please select a valid Excel file (.xlsx or .xls)", "error"⟩]) := by
  simp [handleFileSelect, h1, h2]

/-- C4 witness: selecting `notes.pdf` over a state with a committed result
leaves the state intact and emits the one error notification. -/
theorem c4_invalid_file_type_witness :
    strEndsWith (strToLower (FileHandle.mk "notes.pdf").name) ".xlsx" = false ∧
    strEndsWith (strToLower (FileHandle.mk "notes.pdf").name) ".xls" = false ∧
    handleFileSelect sampleResultState (some [⟨"notes.pdf"⟩])
      = (sampleResultState,
         [⟨"Please select a valid Excel file (.xlsx or .xls)", "error"⟩]) :=
  ⟨by decide, by decide,
   c4_invalid_file_type sampleResultState ⟨"notes.pdf"⟩ [] (by decide) (by decide)⟩

/-- C5: selecting a valid Excel file over a state holding a prior
successful result clears the upload result (download info, summary,
details), the grade ranges, the chart data, the submission parameters and
the busy flag, and stages the new file as the only staged file. -/
theorem c5_valid_selection_resets (s : State) (f : FileHandle) (rest : List FileHandle)
    (hprior : s.downloadInfo.isSome = true)
    (hvalid : (strEndsWith (strToLower f.name) ".xlsx" || strEndsWith (strToLower f.name) ".xls") = true) :
    handleFileSelect s (some (f :: rest))
      = ({ emptyState with selectedFile := some f }, []) := by
  have : (!(strEndsWith (strToLower f.name) ".xlsx") && !(strEndsWith (strToLower f.name) ".xls")) = false := by
    rcases Bool.or_eq_true_iff.mp hvalid with h | h <;> simp [h]
  simp only [handleFileSelect, this, Bool.false_eq_true, if_false]
  rfl

/-- C5 witness: selecting `new.XLSX` over the populated sample state yields
the empty state with only the new file staged, and no notification. -/
theorem c5_valid_selection_resets_witness :
    sampleResultState.downloadInfo.isSome = true ∧
    (strEndsWith (strToLower (FileHandle.mk "new.XLSX").name) ".xlsx" ||
      strEndsWith (strToLower (FileHandle.mk "new.XLSX").name) ".xls") = true ∧
    handleFileSelect sampleResultState (some [⟨"new.XLSX"⟩])
      = ({ emptyState with selectedFile := some ⟨"new.XLSX"⟩ }, []) :=
  ⟨rfl, by decide,
   c5_valid_selection_resets sampleResultState ⟨"new.XLSX"⟩ [] rfl (by decide)⟩

/-- The message composition for a non-ok body carrying `found_subjects`,
exposed with its left-associated append structure. -/
theorem uploadErrorMessage_found (body : UploadBody) (fs : List String)
    (hfs : body.found_subjects = some fs) :
    uploadErrorMessage body
      = ((match body.error with
          | some e => if e = "" then "" else e ++ " "
          | none => "") ++ "Found subjects: ") ++ String.intercalate ", " fs := by
  unfold uploadErrorMessage
  rw [hfs]

theorem strContains_refl_empty (m : String) : strContains m "" :=
  ⟨"", m, by simp⟩

/-- C6: a non-success `/upload` response whose body carries a
`found_subjects` list makes `submit()` emit one error notification whose
message contains the server's error text (when present) and the
comma-joined subject list, while committing no result state (only the busy
flag is cleared). -/
theorem c6_found_subjects_message (s : State) (f : FileHandle) (status : Nat)
    (body : UploadBody) (fs : List String)
    (hval : validateUpload s = .ok f)
    (hstatus : respOk status = false)
    (hfs : body.found_subjects = some fs) :
    handleUpload s (.response status body)
        = (some ⟨f, s.expectedTotal, jsTrim s.subjectCode⟩,
           { s with isUploading := false },
           [⟨uploadErrorMessage body, "error"⟩]) ∧
    strContains (uploadErrorMessage body) (body.error.getD "") ∧
    strContains (uploadErrorMessage body) (String.intercalate ", " fs) := by
  refine ⟨?_, ?_, ?_⟩
  · simp [handleUpload, hval, handleUploadResponse, hstatus, stateAtRequestTime]
  · rw [uploadErrorMessage_found body fs hfs]
    cases herr : body.error with
    | none => exact strContains_refl_empty _
    | some e =>
      by_cases he : e = ""
      · subst he; exact strContains_refl_empty _
      · refine ⟨"", (" " ++ "Found subjects: ") ++ String.intercalate ", " fs, ?_⟩
        simp [he, String.empty_append, String.append_assoc]
  · rw [uploadErrorMessage_found body fs hfs]
    exact strContains_right _ _

/-- A concrete 409 body: subject mismatch with two found subjects. -/
def mismatchBody : UploadBody :=
  ⟨some "mismatch", some ["CS101", "CS102"], "", "", ⟨0, 0, 0, 0, ""⟩, []⟩

/-- C6 witness: status 409 with body
`{error:"mismatch", found_subjects:["CS101","CS102"]}` yields one error
notification containing both "mismatch" and "CS101, CS102", and no
committed result. -/
theorem c6_found_subjects_message_witness :
    handleUpload uploadReadyState (.response 409 mismatchBody)
        = (some ⟨⟨"marks.xlsx"⟩, uploadReadyState.expectedTotal,
                 jsTrim uploadReadyState.subjectCode⟩,
           { uploadReadyState with isUploading := false },
           [⟨uploadErrorMessage mismatchBody, "error"⟩]) ∧
    strContains (uploadErrorMessage mismatchBody) (mismatchBody.error.getD "") ∧
    strContains (uploadErrorMessage mismatchBody)
      (String.intercalate ", " ["CS101", "CS102"]) :=
  c6_found_subjects_message uploadReadyState ⟨"marks.xlsx"⟩ 409 mismatchBody
    ["CS101", "CS102"] rfl (by decide) rfl

/-- C7: a grade-range fetch that fails or returns a body without a
`grade_ranges` field sets the range map to `null` and changes nothing
else — no notification is emitted and the committed summary, details,
download info and chart data are untouched. -/
theorem c7_range_fetch_isolated (s : State) (r : RangeFetchOutcome)
    (h : r = .failed ∨ r = .ok none) :
    applyRangeFetch s r = ({ s with gradeRanges := none }, []) := by
  rcases h with h | h <;> subst h <;> rfl

/-- C7 witness: both failure modes over a fully populated state clear only
the range map. -/
theorem c7_range_fetch_isolated_witness :
    applyRangeFetch sampleResultState .failed
      = ({ sampleResultState with gradeRanges := none }, []) ∧
    applyRangeFetch sampleResultState (.ok none)
      = ({ sampleResultState with gradeRanges := none }, []) :=
  ⟨c7_range_fetch_isolated _ _ (Or.inl rfl),
   c7_range_fetch_isolated _ _ (Or.inr rfl)⟩

/-- A concrete successful `/upload` body. -/
def okBody : UploadBody :=
  ⟨none, none, "id-1", "graded.xlsx", ⟨2, 73, 91, 55, "absolute"⟩, sampleDetails⟩

/-- C8: once validation passes, the busy flag is set in the state in force
while the request is in flight and is cleared in the final state for every
possible outcome of the request. -/
theorem c8_busy_lifecycle (s : State) (f : FileHandle) (r : FetchOutcome)
    (hval : validateUpload s = .ok f) :
    (stateAtRequestTime s).isUploading = true ∧
    (handleUpload s r).2.1.isUploading = false := by
  refine ⟨rfl, ?_⟩
  cases r with
  | thrown m => simp [handleUpload, hval, handleUploadResponse]
  | response status body =>
    by_cases h : respOk status = true
    · simp [handleUpload, hval, handleUploadResponse, h]
    · simp [handleUpload, hval, handleUploadResponse, h]

/-- C8 witness: from a validated state, the busy flag ends `false` after a
thrown network error, a 500 response, and a 200 response alike. -/
theorem c8_busy_lifecycle_witness :
    ((stateAtRequestTime uploadReadyState).isUploading = true ∧
     (handleUpload uploadReadyState (.thrown "NetworkError")).2.1.isUploading = false) ∧
    ((stateAtRequestTime uploadReadyState).isUploading = true ∧
     (handleUpload uploadReadyState (.response 500 mismatchBody)).2.1.isUploading = false) ∧
    ((stateAtRequestTime uploadReadyState).isUploading = true ∧
     (handleUpload uploadReadyState (.response 200 okBody)).2.1.isUploading = false) :=
  ⟨c8_busy_lifecycle uploadReadyState ⟨"marks.xlsx"⟩ _ rfl,
   c8_busy_lifecycle uploadReadyState ⟨"marks.xlsx"⟩ _ rfl,
   c8_busy_lifecycle uploadReadyState ⟨"marks.xlsx"⟩ _ rfl⟩

/-- C9: with no prior successful upload (`downloadInfo` absent),
`download()` issues no request and emits the one no-download-target error
notification, whatever the network would have answered. -/
theorem c9_download_requires_upload (s : State) (r : DownloadFetch)
    (h : s.downloadInfo = none) :
    handleDownload s r = (none, [⟨"No file available for download.", "error"⟩]) := by
  simp [handleDownload, h]

/-- C9 witness: `download()` on the empty state makes no request. -/
theorem c9_download_requires_upload_witness :
    handleDownload emptyState (.response 200)
      = (none, [⟨"No file available for download.", "error"⟩]) :=
  c9_download_requires_upload emptyState (.response 200) rfl

/-- C10: a null or empty candidate file list makes `selectFile` return
with no state change and no notification, and with several candidates only
the first file determines the outcome. -/
theorem c10_file_list_edge_cases (s : State) (f : FileHandle) (rest : List FileHandle) :
    handleFileSelect s none = (s, []) ∧
    handleFileSelect s (some []) = (s, []) ∧
    handleFileSelect s (some (f :: rest)) = handleFileSelect s (some [f]) :=
  ⟨rfl, rfl, rfl⟩
